import Mathlib

/-!
Verification development for the `maximize` proxy: a shallow embedding of its
credential storage, OAuth flow and request transformation pipeline, together
with theorems checking the specification against the embedded code.
-/

namespace Maximize

/-- Model of Rust `f32` values as the sanitizer uses them: either NaN or an
exact rational value. Every comparison the sanitizer performs (range
containment, absolute difference against `f32::EPSILON`, `max`/`min`
clamping) is exact on the rationals involved, so the model returns the same
booleans as the `f32` code on all representable inputs. -/
inductive F32 where
  | nan : F32
  | val (q : ℚ) : F32
deriving DecidableEq, Repr

/-- The value of `f32::EPSILON`, namely `2^-23`. -/
def f32Epsilon : ℚ := 1 / 2 ^ 23

/-- Embedding of `ThinkingParameter` from `proxy.rs`. -/
structure ThinkingParameter where
  type_ : String
  budget_tokens : Int
deriving DecidableEq, Repr

/-- Minimal JSON value type standing for `serde_json::Value`. -/
inductive Json where
  | null : Json
  | bool (b : Bool) : Json
  | num (q : ℚ) : Json
  | str (s : String) : Json
  | arr (elems : List Json) : Json
  | obj (fields : List (String × Json)) : Json

/-- Embedding of `AnthropicMessageRequest` from `proxy.rs`. -/
structure AnthropicMessageRequest where
  model : String
  messages : List Json
  max_tokens : Int
  temperature : Option F32
  top_p : Option F32
  top_k : Option Int
  system : Option Json
  stream : Bool
  thinking : Option ThinkingParameter
  tools : Option (List Json)

/-- First validation block of `sanitize_anthropic_request`: drop `top_p`
when it is NaN or outside `[0, 1]`. -/
def sanitizeTopP : Option F32 → Option F32
  | none => none
  | some F32.nan => none
  | some (F32.val q) => if 0 ≤ q ∧ q ≤ 1 then some (F32.val q) else none

/-- Second validation block: drop `temperature` when it is NaN. -/
def sanitizeTemperature : Option F32 → Option F32
  | some F32.nan => none
  | x => x

/-- Third validation block: drop `top_k` when it is `<= 0`. -/
def sanitizeTopK : Option Int → Option Int
  | none => none
  | some k => if k ≤ 0 then none else some k

/-- Fourth validation block: drop `tools` when the list is empty. -/
def sanitizeTools : Option (List Json) → Option (List Json)
  | none => none
  | some ts => if ts.isEmpty then none else some ts

/-- The test `(temp - 1.0).abs() > f32::EPSILON` of the thinking block; on
NaN every such comparison is false in Rust. -/
def f32AbsSubOneGtEps : F32 → Bool
  | F32.nan => false
  | F32.val q => decide (f32Epsilon < |q - 1|)

/-- The test `(lo..=hi).contains(&x)`; false on NaN. -/
def f32InRange (lo hi : ℚ) : F32 → Bool
  | F32.nan => false
  | F32.val q => decide (lo ≤ q ∧ q ≤ hi)

/-- The clamp `x.max(lo).min(hi)`. Rust `f32::max` and `f32::min` return the
other operand when one is NaN, so a NaN input clamps to `min lo hi`. -/
def f32ClampMaxMin (x : F32) (lo hi : ℚ) : F32 :=
  match x with
  | F32.nan => F32.val (min lo hi)
  | F32.val q => F32.val (min (max q lo) hi)

/-- The guard `thinking.type_ == "enabled"` on an optional parameter. -/
def thinkingEnabled : Option ThinkingParameter → Bool
  | some t => t.type_ == "enabled"
  | none => false

/-- The temperature adjustment of the thinking block: force `temperature`
to `1.0` when it is set and differs from `1.0` by more than
`f32::EPSILON`. -/
def thinkTemperature : Option F32 → Option F32
  | some temp => if f32AbsSubOneGtEps temp then some (F32.val 1) else some temp
  | none => none

/-- The top_p adjustment of the thinking block: clamp a set `top_p` into
`[0.95, 1.0]` via `top_p.max(0.95).min(1.0)` when it is outside. -/
def thinkTopP : Option F32 → Option F32
  | some tp =>
      if f32InRange (95 / 100) 1 tp then some tp
      else some (f32ClampMaxMin tp (95 / 100) 1)
  | none => none

/-- The thinking block of `sanitize_anthropic_request`: with thinking
enabled, adjust `temperature`, clamp `top_p`, and remove `top_k`. -/
def applyThinkingConstraints (r : AnthropicMessageRequest) : AnthropicMessageRequest :=
  if thinkingEnabled r.thinking then
    { r with
        temperature := thinkTemperature r.temperature,
        top_p := thinkTopP r.top_p,
        top_k := none }
  else r

/-- The four universal parameter drops of `sanitize_anthropic_request`,
applied to their respective fields. -/
def dropPhase (r : AnthropicMessageRequest) : AnthropicMessageRequest :=
  { r with
      top_p := sanitizeTopP r.top_p,
      temperature := sanitizeTemperature r.temperature,
      top_k := sanitizeTopK r.top_k,
      tools := sanitizeTools r.tools }

/-- Embedding of `sanitize_anthropic_request` from `proxy.rs`: the four
universal parameter drops followed by the thinking-constraints block. -/
def sanitize_anthropic_request (r : AnthropicMessageRequest) : AnthropicMessageRequest :=
  applyThinkingConstraints (dropPhase r)

/-- The synthetic first-party identification block built in
`inject_claude_code_system_message`. -/
def claude_code_spoof_element : Json :=
  Json.obj
    [("type", Json.str "text"),
     ("text", Json.str "You are Claude Code, Anthropic\x27s official CLI for Claude."),
     ("cache_control", Json.obj [("type", Json.str "ephemeral")])]

/-- The text block built from a prior `system` string, marked cacheable. -/
def systemTextBlock (s : String) : Json :=
  Json.obj
    [("type", Json.str "text"),
     ("text", Json.str s),
     ("cache_control", Json.obj [("type", Json.str "ephemeral")])]

/-- Embedding of `inject_claude_code_system_message` from `proxy.rs`. A
`system` array gets the synthetic block prepended; a `system` string becomes
a two-element array; a missing `system` becomes a one-element array; any
other JSON shape is left untouched by the source. -/
def inject_claude_code_system_message (r : AnthropicMessageRequest) : AnthropicMessageRequest :=
  match r.system with
  | some (Json.arr elems) =>
      { r with system := some (Json.arr (claude_code_spoof_element :: elems)) }
  | some (Json.str s) =>
      { r with system := some (Json.arr [claude_code_spoof_element, systemTextBlock s]) }
  | some _ => r
  | none => { r with system := some (Json.arr [claude_code_spoof_element]) }

/-- Embedding of the max-tokens adjustment performed inline in
`anthropic_messages` before sanitization: with thinking enabled, raise
`max_tokens` to `budget_tokens + 1024` when it is lower. -/
def ensure_thinking_max_tokens (r : AnthropicMessageRequest) : AnthropicMessageRequest :=
  match r.thinking with
  | some t =>
      if t.type_ == "enabled" then
        let required := t.budget_tokens + 1024
        if r.max_tokens < required then { r with max_tokens := required } else r
      else r
  | none => r

/-- The sanitization stage of the `anthropic_messages` handler: the inline
max-tokens adjustment followed by `sanitize_anthropic_request`. -/
def sanitize_stage (r : AnthropicMessageRequest) : AnthropicMessageRequest :=
  sanitize_anthropic_request (ensure_thinking_max_tokens r)

/-- Embedding of `TokenData` from `storage.rs`. -/
structure TokenData where
  access_token : String
  refresh_token : String
  expires_at : Int
deriving DecidableEq, Repr

/-- Embedding of `TokenStatus` from `storage.rs`. -/
structure TokenStatus where
  has_tokens : Bool
  is_expired : Bool
  expires_at : Option String
  time_until_expiry : String
  expires_in_seconds : Option Int
deriving DecidableEq, Repr

/-- State of the persisted token file, abstracting the on-disk bytes by the
outcome of `serde_json::from_str::<TokenData>` on them: the path may be
missing, be a directory, hold bytes that fail to parse, or hold a valid
record. -/
inductive FileState where
  | missing : FileState
  | dir : FileState
  | malformed : FileState
  | valid (d : TokenData) : FileState
deriving DecidableEq, Repr

/-- Errors surfaced by `try_load_from_file`. -/
inductive StorageError where
  | dirPath : StorageError
  | parseError : StorageError
deriving DecidableEq, Repr

instance {ε α : Type} [DecidableEq ε] [DecidableEq α] : DecidableEq (Except ε α) :=
  fun x y =>
    match x, y with
    | Except.ok a, Except.ok b =>
        if h : a = b then isTrue (by rw [h]) else isFalse (by simp [h])
    | Except.error a, Except.error b =>
        if h : a = b then isTrue (by rw [h]) else isFalse (by simp [h])
    | Except.ok _, Except.error _ => isFalse (by simp)
    | Except.error _, Except.ok _ => isFalse (by simp)

/-- Embedding of `TokenStorage::try_load_from_file`: a missing file is
`none`, a directory and malformed JSON are surfaced errors, a valid file
yields its record. -/
def try_load_from_file : FileState → Except StorageError (Option TokenData)
  | FileState.missing => Except.ok none
  | FileState.dir => Except.error StorageError.dirPath
  | FileState.malformed => Except.error StorageError.parseError
  | FileState.valid d => Except.ok (some d)

/-- The environment variables `load_tokens` reads, each possibly unset. -/
structure Env where
  access_token : Option String
  refresh_token : Option String
  expires_at_var : Option String
  expires_in_var : Option String
deriving DecidableEq, Repr

/-- Embedding of Rust `str::parse::<i64>`: optional sign, one or more
decimal digits, and an `i64` range check. -/
def parseI64 (s : String) : Option Int :=
  let signDigits : Int × List Char :=
    match s.data with
    | '+' :: t => (1, t)
    | '-' :: t => (-1, t)
    | cs => (1, cs)
  let sign := signDigits.1
  let digits := signDigits.2
  if digits.isEmpty then none
  else if digits.all Char.isDigit then
    let n : Int := digits.foldl (fun a c => a * 10 + ((c.toNat : Int) - 48)) 0
    let v := sign * n
    if -(2 ^ 63) ≤ v ∧ v ≤ 2 ^ 63 - 1 then some v else none
  else none

/-- The expiry the env-override branch of `load_tokens` derives: an absolute
`MAXIMIZE_TOKEN_EXPIRES_AT` when it parses, else `now` plus
`MAXIMIZE_TOKEN_EXPIRES_IN` when that parses, else `now + 86400`. -/
def envExpiresAt (env : Env) (now : Int) : Int :=
  let fallback : Int := now + ((env.expires_in_var.bind parseI64).getD 86400)
  match env.expires_at_var with
  | some s =>
      match parseI64 s with
      | some ts => ts
      | none => fallback
  | none => fallback

/-- Embedding of Rust `str::trim`: drop leading and trailing whitespace. -/
def rustTrim (s : String) : String :=
  String.mk (((s.data.dropWhile Char.isWhitespace).reverse.dropWhile Char.isWhitespace).reverse)

/-- The guard of the env-override branch: both `MAXIMIZE_ACCESS_TOKEN` and
`MAXIMIZE_REFRESH_TOKEN` set with non-whitespace content (the source tests
`!token.trim().is_empty()`). -/
def usableEnvOverrides (env : Env) : Option (String × String) :=
  match env.access_token, env.refresh_token with
  | some a, some r => if rustTrim a ≠ "" ∧ rustTrim r ≠ "" then some (a, r) else none
  | _, _ => none

/-- Embedding of `TokenStorage::load_tokens`. With usable env overrides, a
readable file whose access token matches the override is returned as-is
(preserving its expiry); otherwise an env-derived record is built and
persisted (the `if let Ok(Some(..))` pattern silently discards a file read
error on this path, and a failure of the persist step is only logged).
Without usable overrides the file is the sole source. Returns the result
together with the resulting file state. -/
def load_tokens (env : Env) (fs : FileState) (now : Int) :
    Except StorageError (Option TokenData) × FileState :=
  match usableEnvOverrides env with
  | some (a, r) =>
      let d : TokenData := ⟨a, r, envExpiresAt env now⟩
      match try_load_from_file fs with
      | Except.ok (some existing) =>
          if existing.access_token = a then (Except.ok (some existing), fs)
          else (Except.ok (some d), FileState.valid d)
      | _ => (Except.ok (some d), FileState.valid d)
  | none => (try_load_from_file fs, fs)

/-- Embedding of `TokenStorage::is_token_expired`: true when loading fails
or yields nothing, or when `now >= expires_at - 60`. -/
def is_token_expired (env : Env) (fs : FileState) (now : Int) : Bool :=
  match (load_tokens env fs now).1 with
  | Except.ok (some tokens) => decide (tokens.expires_at - 60 ≤ now)
  | _ => true

/-- Embedding of `TokenStorage::get_access_token`. -/
def get_access_token (env : Env) (fs : FileState) (now : Int) : Option String :=
  if is_token_expired env fs now then none
  else
    match (load_tokens env fs now).1 with
    | Except.ok (some t) => some t.access_token
    | _ => none

/-- Embedding of `TokenStorage::get_refresh_token`. -/
def get_refresh_token (env : Env) (fs : FileState) (now : Int) : Option String :=
  match (load_tokens env fs now).1 with
  | Except.ok (some t) => some t.refresh_token
  | _ => none

/-- The `"{}h {}m ago"` / `"{}m ago"` rendering of `get_status` (Rust `i64`
division and remainder truncate toward zero). -/
def formatAgo (time_since : Int) : String :=
  let hours_since := time_since.tdiv 3600
  let mins_since := (time_since.tmod 3600).tdiv 60
  if 0 < hours_since then toString hours_since ++ "h " ++ toString mins_since ++ "m ago"
  else toString mins_since ++ "m ago"

/-- The `"{}h {}m"` / `"{}m"` rendering of `get_status`. -/
def formatRemaining (time_remaining : Int) : String :=
  let hours := time_remaining.tdiv 3600
  let minutes := (time_remaining.tmod 3600).tdiv 60
  if 0 < hours then toString hours ++ "h " ++ toString minutes ++ "m"
  else toString minutes ++ "m"

/-- Model of `chrono::DateTime::from_timestamp(ts, 0).map(|dt| dt.to_rfc3339())`
from `get_status`: a function of the timestamp alone (the calendar rendering
lives outside this repository; only its dependency on `expires_at` matters
here, so the rendering is kept abstract as an injective tag of `ts`). -/
def chrono_to_rfc3339 (ts : Int) : Option String :=
  some ("unix:" ++ toString ts)

/-- The pure part of `TokenStorage::get_status`, taking the outcome of
`load_tokens` and the current time. -/
def get_status_of (loaded : Except StorageError (Option TokenData)) (now : Int) : TokenStatus :=
  match loaded with
  | Except.ok (some tokens) =>
      if tokens.expires_at ≤ now then
        { has_tokens := true
          is_expired := true
          expires_at := chrono_to_rfc3339 tokens.expires_at
          time_until_expiry := formatAgo (now - tokens.expires_at)
          expires_in_seconds := none }
      else
        { has_tokens := true
          is_expired := false
          expires_at := chrono_to_rfc3339 tokens.expires_at
          time_until_expiry := formatRemaining (tokens.expires_at - now)
          expires_in_seconds := some (tokens.expires_at - now) }
  | _ =>
      { has_tokens := false
        is_expired := true
        expires_at := none
        time_until_expiry := "No tokens"
        expires_in_seconds := none }

/-- Embedding of `TokenStorage::get_status`. -/
def get_status (env : Env) (fs : FileState) (now : Int) : TokenStatus :=
  get_status_of (load_tokens env fs now).1 now

/-- Filesystem operations a storage write performs, for stating how token
files are written. -/
inductive FsOp where
  | write (path : String) (content : String) : FsOp
  | rename (src dst : String) : FsOp
  | setPermissions (path : String) (mode : Nat) : FsOp
deriving DecidableEq, Repr

/-- Minimal string escaping of `serde_json` (quotes and backslashes). -/
def jsonEscape (s : String) : String :=
  String.mk (s.data.foldr
    (fun c acc =>
      if c = '"' then '\\' :: '"' :: acc
      else if c = '\\' then '\\' :: '\\' :: acc
      else c :: acc) [])

/-- The `serde_json::to_string_pretty` rendering of a `TokenData`. -/
def to_string_pretty (d : TokenData) : String :=
  "\x7b\n  \"access_token\": \"" ++ jsonEscape d.access_token ++
    "\",\n  \"refresh_token\": \"" ++ jsonEscape d.refresh_token ++
    "\",\n  \"expires_at\": " ++ toString d.expires_at ++ "\n\x7d"

/-- Embedding of `TokenStorage::save_token_data` as the list of filesystem
operations it performs: a single in-place write of the serialized record to
the token path, then a permission change to `0o600`. -/
def save_token_data_ops (token_path : String) (d : TokenData) : List FsOp :=
  [FsOp.write token_path (to_string_pretty d), FsOp.setPermissions token_path 0o600]

/-- Embedding of `TokenStorage::save_tokens`: computes
`expires_at = now + expires_in` and performs the same operations as
`save_token_data`. -/
def save_tokens_ops (token_path access_token refresh_token : String)
    (expires_in now : Int) : List FsOp :=
  save_token_data_ops token_path ⟨access_token, refresh_token, now + expires_in⟩

/-- Stated from the specification words, for comparison with the code: a
write-then-replace of `finalPath` writes the content to some separate
temporary file which is then renamed over `finalPath`, and never writes
`finalPath` in place. -/
def writesAtomically (ops : List FsOp) (finalPath : String) : Prop :=
  (∃ tmp content, tmp ≠ finalPath ∧
    FsOp.write tmp content ∈ ops ∧ FsOp.rename tmp finalPath ∈ ops) ∧
  ∀ content, FsOp.write finalPath content ∉ ops

/-- The URL-safe base64 alphabet (`A-Z`, `a-z`, `0-9`, `-`, `_`). -/
def b64UrlChar (n : Nat) : Char :=
  if n < 26 then Char.ofNat (65 + n)
  else if n < 52 then Char.ofNat (97 + (n - 26))
  else if n < 62 then Char.ofNat (48 + (n - 52))
  else if n = 62 then Char.ofNat 45
  else Char.ofNat 95

/-- URL-safe base64 encoding without padding, as performed by
`base64::engine::general_purpose::URL_SAFE_NO_PAD.encode`: three input bytes
become four characters; a remainder of one byte becomes two characters and a
remainder of two bytes becomes three. -/
def b64UrlNoPad : List Nat → List Char
  | [] => []
  | [b1] => [b64UrlChar (b1 / 4), b64UrlChar (b1 % 4 * 16)]
  | [b1, b2] =>
      [b64UrlChar (b1 / 4), b64UrlChar (b1 % 4 * 16 + b2 / 16), b64UrlChar (b2 % 16 * 4)]
  | b1 :: b2 :: b3 :: rest =>
      b64UrlChar (b1 / 4) :: b64UrlChar (b1 % 4 * 16 + b2 / 16) ::
        b64UrlChar (b2 % 16 * 4 + b3 / 64) :: b64UrlChar (b3 % 64) :: b64UrlNoPad rest

/-- Reduction modulo `2^32`, the word size of SHA-256 arithmetic. -/
def w32 (n : Nat) : Nat := n % 4294967296

/-- Right rotation of a 32-bit word. -/
def rotr32 (x n : Nat) : Nat := w32 ((x >>> n) ||| (x <<< (32 - n)))

/-- The SHA-256 compression functions of FIPS 180-4. -/
def sha256Ch (x y z : Nat) : Nat := (x &&& y) ^^^ ((x ^^^ 4294967295) &&& z)

/-- The SHA-256 majority function. -/
def sha256Maj (x y z : Nat) : Nat := (x &&& y) ^^^ (x &&& z) ^^^ (y &&& z)

/-- The SHA-256 Σ0 function. -/
def bigSigma0 (x : Nat) : Nat := rotr32 x 2 ^^^ rotr32 x 13 ^^^ rotr32 x 22

/-- The SHA-256 Σ1 function. -/
def bigSigma1 (x : Nat) : Nat := rotr32 x 6 ^^^ rotr32 x 11 ^^^ rotr32 x 25

/-- The SHA-256 σ0 function. -/
def smallSigma0 (x : Nat) : Nat := rotr32 x 7 ^^^ rotr32 x 18 ^^^ (x >>> 3)

/-- The SHA-256 σ1 function. -/
def smallSigma1 (x : Nat) : Nat := rotr32 x 17 ^^^ rotr32 x 19 ^^^ (x >>> 10)

/-- The 64 SHA-256 round constants of FIPS 180-4 (in decimal). -/
def sha256K : List Nat :=
  [1116352408, 1899447441, 3049323471, 3921009573, 961987163,
   1508970993, 2453635748, 2870763221, 3624381080, 310598401,
   607225278, 1426881987, 1925078388, 2162078206, 2614888103,
   3248222580, 3835390401, 4022224774, 264347078, 604807628,
   770255983, 1249150122, 1555081692, 1996064986, 2554220882,
   2821834349, 2952996808, 3210313671, 3336571891, 3584528711,
   113926993, 338241895, 666307205, 773529912, 1294757372,
   1396182291, 1695183700, 1986661051, 2177026350, 2456956037,
   2730485921, 2820302411, 3259730800, 3345764771, 3516065817,
   3600352804, 4094571909, 275423344, 430227734, 506948616,
   659060556, 883997877, 958139571, 1322822218, 1537002063,
   1747873779, 1955562222, 2024104815, 2227730452, 2361852424,
   2428436474, 2756734187, 3204031479, 3329325298]

/-- The eight big-endian bytes of a 64-bit length field. -/
def beBytes8 (n : Nat) : List Nat :=
  [n / 2 ^ 56 % 256, n / 2 ^ 48 % 256, n / 2 ^ 40 % 256, n / 2 ^ 32 % 256,
   n / 2 ^ 24 % 256, n / 2 ^ 16 % 256, n / 2 ^ 8 % 256, n % 256]

/-- The four big-endian bytes of a 32-bit word. -/
def beBytes4 (n : Nat) : List Nat :=
  [n / 2 ^ 24 % 256, n / 2 ^ 16 % 256, n / 2 ^ 8 % 256, n % 256]

/-- SHA-256 padding: append `0x80`, zeros to 56 mod 64 bytes, then the
bit length as eight big-endian bytes. -/
def sha256Pad (msg : List Nat) : List Nat :=
  let padZeros := (119 - msg.length % 64) % 64
  msg ++ 0x80 :: List.replicate padZeros 0 ++ beBytes8 (8 * msg.length)

/-- Group a byte list into big-endian 32-bit words. -/
def toWordsBE : List Nat → List Nat
  | b1 :: b2 :: b3 :: b4 :: rest =>
      (b1 * 2 ^ 24 + b2 * 2 ^ 16 + b3 * 2 ^ 8 + b4) :: toWordsBE rest
  | _ => []

/-- Group a word list into blocks of sixteen words. -/
def chunks16 (l : List Nat) : List (List Nat) :=
  go l.length l
where
  go : Nat → List Nat → List (List Nat)
    | 0, _ => []
    | _, [] => []
    | fuel + 1, ws => ws.take 16 :: go fuel (ws.drop 16)

/-- Extend a 16-word block to the 64-word message schedule. -/
def extendSchedule : Nat → List Nat → List Nat
  | 0, ws => ws
  | fuel + 1, ws =>
      let l := ws.length
      let w := w32 (smallSigma1 (ws.getD (l - 2) 0) + ws.getD (l - 7) 0 +
        smallSigma0 (ws.getD (l - 15) 0) + ws.getD (l - 16) 0)
      extendSchedule fuel (ws ++ [w])

/-- The eight SHA-256 working variables. -/
structure Sha256State where
  a : Nat
  b : Nat
  c : Nat
  d : Nat
  e : Nat
  f : Nat
  g : Nat
  h : Nat
deriving DecidableEq, Repr

/-- The SHA-256 initial hash value of FIPS 180-4 (in decimal). -/
def sha256Init : Sha256State :=
  ⟨1779033703, 3144134277, 1013904242, 2773480762,
   1359893119, 2600822924, 528734635, 1541459225⟩

/-- One SHA-256 round on the working variables, given a round constant and a
schedule word. -/
def sha256Round (s : Sha256State) (kw : Nat × Nat) : Sha256State :=
  let t1 := w32 (s.h + bigSigma1 s.e + sha256Ch s.e s.f s.g + kw.1 + kw.2)
  let t2 := w32 (bigSigma0 s.a + sha256Maj s.a s.b s.c)
  ⟨w32 (t1 + t2), s.a, s.b, s.c, w32 (s.d + t1), s.e, s.f, s.g⟩

/-- Process one 16-word block: 64 rounds, then add the previous state. -/
def sha256Block (h0 : Sha256State) (block : List Nat) : Sha256State :=
  let ws := extendSchedule 48 block
  let s := (sha256K.zip ws).foldl sha256Round h0
  ⟨w32 (h0.a + s.a), w32 (h0.b + s.b), w32 (h0.c + s.c), w32 (h0.d + s.d),
   w32 (h0.e + s.e), w32 (h0.f + s.f), w32 (h0.g + s.g), w32 (h0.h + s.h)⟩

/-- SHA-256 of a byte list, as computed by the `sha2` crate the source
calls: pad, process each block, and serialize the final state big-endian. -/
def sha256 (msg : List Nat) : List Nat :=
  let final := (chunks16 (toWordsBE (sha256Pad msg))).foldl sha256Block sha256Init
  ([final.a, final.b, final.c, final.d, final.e, final.f, final.g, final.h].map beBytes4).flatten

/-- The bytes of an ASCII string (`str::as_bytes`); every string this
development hashes is base64 output, hence ASCII. -/
def strBytes (s : String) : List Nat := s.data.map Char.toNat

/-- Embedding of `OAuthManager::generate_pkce`, parameterized by the 32
random bytes the source draws: the verifier is the URL-safe unpadded base64
encoding of those bytes, and the challenge is the URL-safe unpadded base64
encoding of the SHA-256 of the verifier bytes. -/
def generate_pkce (random_bytes : List Nat) : String × String :=
  let code_verifier := String.mk (b64UrlNoPad random_bytes)
  let code_challenge := String.mk (b64UrlNoPad (sha256 (strBytes code_verifier)))
  (code_verifier, code_challenge)

/-- Embedding of the query pairs `OAuthManager::get_authorize_url` appends,
in order, parameterized by the random bytes of the PKCE pair; the source
sets `state` to the verifier itself. -/
def get_authorize_url_query (random_bytes : List Nat) : List (String × String) :=
  let vc := generate_pkce random_bytes
  [("code", "true"),
   ("client_id", "9d1c250a-e61b-44d9-88ed-5944d1962f5e"),
   ("response_type", "code"),
   ("redirect_uri", "https://console.anthropic.com/oauth/code/callback"),
   ("scope", "org:create_api_key user:profile user:inference"),
   ("code_challenge", vc.2),
   ("code_challenge_method", "S256"),
   ("state", vc.1)]

/-- Embedding of Rust `str::split(c)` over the characters of a string:
every separator occurrence starts a new segment, and `n` separators yield
`n + 1` segments. -/
def splitChar (c : Char) (s : String) : List String :=
  go s.data []
where
  go : List Char → List Char → List String
    | [], acc => [String.mk acc.reverse]
    | x :: xs, acc =>
        if x = c then String.mk acc.reverse :: go xs [] else go xs (x :: acc)

/-- Embedding of the input parsing of `OAuthManager::exchange_code`: the
source collects `code.split('#')`, bails out when fewer than two parts
exist, and uses `parts[0]` as the code and `parts[1]` as the state. -/
def exchange_code_split (code : String) : Option (String × String) :=
  match splitChar (Char.ofNat 35) code with
  | c :: s :: _ => some (c, s)
  | _ => none

/-- Join segments back with `#` separators. -/
def joinWithHash : List String → String
  | [] => ""
  | [s] => s
  | s :: rest => s ++ "#" ++ joinWithHash rest

/-- Stated from the specification words, for comparison with the code:
split on the FIRST `#` only, the state being everything after it. -/
def splitOnFirstHash (code : String) : Option (String × String) :=
  match splitChar (Char.ofNat 35) code with
  | c :: s :: rest => some (c, joinWithHash (s :: rest))
  | _ => none

/-- Embedding of the verifier resolution of `OAuthManager::exchange_code`:
the saved PkceSession's verifier when one exists, otherwise the state
portion of the input. -/
def resolve_code_verifier (pkce : Option (String × String)) (state : String) : String :=
  match pkce with
  | some (verifier, _) => verifier
  | none => state

/-- Progress of one caller through the body of `refresh_tokens`: about to
read the stored refresh token, about to POST upstream holding the token it
read, about to save a freshly received pair, or finished. -/
inductive RefreshPc where
  | start : RefreshPc
  | post (tok : String) : RefreshPc
  | save (newAccess newRefresh : String) : RefreshPc
  | done (result : Bool) : RefreshPc
deriving DecidableEq, Repr

/-- Shared state of concurrent `refresh_tokens` callers: the stored
credential, the number of refresh requests issued upstream so far, and each
caller's progress. The provider hands out a distinct fresh pair on each
call, numbering them in order. -/
structure RefreshWorld where
  stored : Option TokenData
  upstreamCalls : Nat
  threads : List RefreshPc
deriving DecidableEq, Repr

/-- One step of caller `i`, following the body of `refresh_tokens` in the
source, which takes no lock between reading the refresh token, issuing the
upstream POST, and saving the result. -/
def stepThread (w : RefreshWorld) (i : Nat) : RefreshWorld :=
  match w.threads.getD i (RefreshPc.done false) with
  | RefreshPc.start =>
      match w.stored with
      | some d => { w with threads := w.threads.set i (RefreshPc.post d.refresh_token) }
      | none => { w with threads := w.threads.set i (RefreshPc.done false) }
  | RefreshPc.post _ =>
      let n := w.upstreamCalls
      { w with
          upstreamCalls := n + 1,
          threads := w.threads.set i (RefreshPc.save ("access" ++ toString n) ("refresh" ++ toString n)) }
  | RefreshPc.save a r =>
      { w with
          stored := some ⟨a, r, 86400⟩,
          threads := w.threads.set i (RefreshPc.done true) }
  | RefreshPc.done _ => w

/-- Run an interleaving of the callers given by a schedule of indices. -/
def runSchedule (w : RefreshWorld) (sched : List Nat) : RefreshWorld :=
  sched.foldl stepThread w

/-- Two callers both about to refresh the same stored credential. -/
def twoCallersWorld : RefreshWorld :=
  { stored := some ⟨"access0", "refresh0", 0⟩
    upstreamCalls := 0
    threads := [RefreshPc.start, RefreshPc.start] }

/-- One route of the axum router, with whether the `api_key_auth`
middleware guards it. -/
structure Route where
  method : String
  path : String
  apiKeyProtected : Bool
deriving DecidableEq, Repr

/-- Embedding of `create_router`: the protected messages route merged with
the three unauthenticated routes. -/
def create_router_routes : List Route :=
  [⟨"POST", "/v1/messages", true⟩,
   ⟨"GET", "/healthz", false⟩,
   ⟨"GET", "/auth/status", false⟩,
   ⟨"GET", "/debug/token", false⟩]

/-- Field lookup on a JSON object. -/
def Json.getField (j : Json) (key : String) : Option Json :=
  match j with
  | Json.obj fields => fields.lookup key
  | _ => none

/-- String-valued field lookup on a JSON object. -/
def Json.getStrField (j : Json) (key : String) : Option String :=
  match j.getField key with
  | some (Json.str s) => some s
  | _ => none

/-- The JSON body built by the `token_debug` handler from the access token
`TokenStorage::get_access_token` returned and from whether
`MAXIMIZE_ACCESS_TOKEN` is set. With a token longer than 16 characters it
reports a preview made of the first 12 and last 12 characters of the raw
token, its length, its first 10 characters, and its source. -/
def token_debug_response (token : Option String) (envHasAccessToken : Bool) : Json :=
  match token with
  | some t =>
      if 16 < t.length then
        Json.obj
          [("has_token", Json.bool true),
           ("token_preview", Json.str (t.take 12 ++ "..." ++ t.drop (t.length - 12))),
           ("token_length", Json.num t.length),
           ("starts_with", Json.str (t.take 10)),
           ("source", Json.str (if envHasAccessToken then "environment" else "file"))]
      else
        Json.obj
          [("has_token", Json.bool true),
           ("token_preview", Json.str "[too short]"),
           ("token_length", Json.num t.length),
           ("warning", Json.str "Token is unusually short")]
  | none =>
      Json.obj
        [("has_token", Json.bool false),
         ("message", Json.str "No token loaded")]

/-- Embedding of the `token_debug` handler served at `/debug/token`. -/
def token_debug (env : Env) (fs : FileState) (now : Int) : Json :=
  token_debug_response (get_access_token env fs now) env.access_token.isSome

/-- Embedding of the `auth_status` handler served at `/auth/status`: the
storage status, serialized as-is. -/
def auth_status (env : Env) (fs : FileState) (now : Int) : TokenStatus :=
  get_status env fs now

/-- A request with thinking enabled and no caller temperature. -/
def thinkingNoTemperatureRequest : AnthropicMessageRequest :=
  { model := "m", messages := [], max_tokens := 500, temperature := none,
    top_p := none, top_k := none, system := none, stream := false,
    thinking := some ⟨"enabled", 2000⟩, tools := none }

/-- The specification's worked example: `temperature=0.3, top_p=0.5,
top_k=5, reasoning.enabled=true, reasoning.budget=2000, max_tokens=500`. -/
def specExampleRequest : AnthropicMessageRequest :=
  { model := "m", messages := [], max_tokens := 500,
    temperature := some (F32.val (3 / 10)), top_p := some (F32.val (1 / 2)),
    top_k := some 5, system := none, stream := false,
    thinking := some ⟨"enabled", 2000⟩, tools := none }

/-- A request with no system field. -/
def noSystemRequest : AnthropicMessageRequest :=
  { model := "m", messages := [], max_tokens := 100, temperature := none,
    top_p := none, top_k := none, system := none, stream := false,
    thinking := none, tools := none }

/-- A request whose system field is the string `"X"`. -/
def stringSystemRequest : AnthropicMessageRequest :=
  { model := "m", messages := [], max_tokens := 100, temperature := none,
    top_p := none, top_k := none, system := some (Json.str "X"), stream := false,
    thinking := none, tools := none }

theorem sanitizeTopP_idem (x : Option F32) : sanitizeTopP (sanitizeTopP x) = sanitizeTopP x := by
  rcases x with _ | x
  · rfl
  rcases x with _ | q
  · rfl
  by_cases h : 0 ≤ q ∧ q ≤ 1 <;> simp [sanitizeTopP, h]

theorem sanitizeTemperature_idem (x : Option F32) :
    sanitizeTemperature (sanitizeTemperature x) = sanitizeTemperature x := by
  rcases x with _ | x
  · rfl
  rcases x with _ | q <;> rfl

theorem sanitizeTopK_idem (x : Option Int) : sanitizeTopK (sanitizeTopK x) = sanitizeTopK x := by
  rcases x with _ | k
  · rfl
  by_cases h : k ≤ 0 <;> simp [sanitizeTopK, h]

theorem sanitizeTools_idem (x : Option (List Json)) :
    sanitizeTools (sanitizeTools x) = sanitizeTools x := by
  rcases x with _ | ts
  · rfl
  by_cases h : ts.isEmpty <;> simp [sanitizeTools, h]

theorem dropPhase_idem (r : AnthropicMessageRequest) : dropPhase (dropPhase r) = dropPhase r := by
  simp [dropPhase, sanitizeTopP_idem, sanitizeTemperature_idem, sanitizeTopK_idem,
    sanitizeTools_idem]

theorem clamp95Bounds (q : ℚ) :
    95 / 100 ≤ min (max q (95 / 100)) 1 ∧ min (max q (95 / 100)) 1 ≤ 1 :=
  ⟨le_min (le_max_right q (95 / 100)) (by norm_num), min_le_right _ _⟩

theorem gtEpsOne_false : f32AbsSubOneGtEps (F32.val 1) = false := by
  simp [f32AbsSubOneGtEps, f32Epsilon]

theorem thinkTemperature_idem (x : Option F32) :
    thinkTemperature (thinkTemperature x) = thinkTemperature x := by
  rcases x with _ | temp
  · rfl
  by_cases h : f32AbsSubOneGtEps temp <;> simp [thinkTemperature, h, gtEpsOne_false]

theorem inRange_clamp (tp : F32) :
    f32InRange (95 / 100) 1 (f32ClampMaxMin tp (95 / 100) 1) = true := by
  rcases tp with _ | q
  · simp [f32ClampMaxMin, f32InRange]
    norm_num
  · simp only [f32ClampMaxMin, f32InRange, decide_eq_true_eq]
    exact clamp95Bounds q

theorem thinkTopP_idem (x : Option F32) : thinkTopP (thinkTopP x) = thinkTopP x := by
  rcases x with _ | tp
  · rfl
  by_cases h : f32InRange (95 / 100) 1 tp <;> simp [thinkTopP, h, inRange_clamp]

theorem applyThinking_idem (s : AnthropicMessageRequest) :
    applyThinkingConstraints (applyThinkingConstraints s) = applyThinkingConstraints s := by
  by_cases hen : thinkingEnabled s.thinking
  · simp [applyThinkingConstraints, hen, thinkTemperature_idem, thinkTopP_idem]
  · simp [applyThinkingConstraints, hen]

theorem sanitizeTemperature_think (x : Option F32) :
    sanitizeTemperature (thinkTemperature (sanitizeTemperature x))
      = thinkTemperature (sanitizeTemperature x) := by
  rcases x with _ | x
  · rfl
  rcases x with _ | q
  · rfl
  by_cases h : f32AbsSubOneGtEps (F32.val q) <;>
    simp [sanitizeTemperature, thinkTemperature, h]

theorem sanitizeTopP_think (x : Option F32) :
    sanitizeTopP (thinkTopP (sanitizeTopP x)) = thinkTopP (sanitizeTopP x) := by
  rcases x with _ | x
  · rfl
  rcases x with _ | q
  · rfl
  by_cases h : 0 ≤ q ∧ q ≤ 1
  · by_cases h2 : f32InRange (95 / 100) 1 (F32.val q)
    · simp [sanitizeTopP, h, thinkTopP, h2]
    · have h0 : (0 : ℚ) ≤ min (max q (95 / 100)) 1 :=
        le_trans (by norm_num) (clamp95Bounds q).1
      simp [sanitizeTopP, h, thinkTopP, h2, f32ClampMaxMin, h0, (clamp95Bounds q).2]
  · simp [sanitizeTopP, h, thinkTopP]

theorem dropPhase_after_think (r : AnthropicMessageRequest) :
    dropPhase (applyThinkingConstraints (dropPhase r)) = applyThinkingConstraints (dropPhase r) := by
  by_cases hen : thinkingEnabled r.thinking
  · simp [dropPhase, applyThinkingConstraints, hen, sanitizeTemperature_think,
      sanitizeTopP_think, sanitizeTools_idem, sanitizeTopK]
  · have h2 : thinkingEnabled (dropPhase r).thinking = false := by
      simp [dropPhase, hen]
    rw [applyThinkingConstraints, h2]
    simp [dropPhase_idem]

/-- Claim C7: `sanitize` is idempotent — applying `sanitize_anthropic_request`
twice yields the same request as applying it once, for every request. -/
theorem sanitize_idempotent (r : AnthropicMessageRequest) :
    sanitize_anthropic_request (sanitize_anthropic_request r) = sanitize_anthropic_request r := by
  unfold sanitize_anthropic_request
  rw [dropPhase_after_think, applyThinking_idem]

theorem sanitize_preserves (r : AnthropicMessageRequest) :
    (sanitize_anthropic_request r).model = r.model ∧
    (sanitize_anthropic_request r).messages = r.messages ∧
    (sanitize_anthropic_request r).max_tokens = r.max_tokens ∧
    (sanitize_anthropic_request r).system = r.system ∧
    (sanitize_anthropic_request r).stream = r.stream ∧
    (sanitize_anthropic_request r).thinking = r.thinking := by
  unfold sanitize_anthropic_request applyThinkingConstraints dropPhase
  split <;> simp

theorem inject_preserves (r : AnthropicMessageRequest) :
    (inject_claude_code_system_message r).model = r.model ∧
    (inject_claude_code_system_message r).messages = r.messages ∧
    (inject_claude_code_system_message r).max_tokens = r.max_tokens ∧
    (inject_claude_code_system_message r).temperature = r.temperature ∧
    (inject_claude_code_system_message r).top_p = r.top_p ∧
    (inject_claude_code_system_message r).top_k = r.top_k ∧
    (inject_claude_code_system_message r).stream = r.stream ∧
    (inject_claude_code_system_message r).thinking = r.thinking ∧
    (inject_claude_code_system_message r).tools = r.tools := by
  unfold inject_claude_code_system_message
  split <;> simp

/-- Claim C10: the two pure transformation stages only change the fields
they are specified to touch — `sanitize_anthropic_request` leaves `model`,
`messages`, `max_tokens`, `system`, `stream` and `thinking` unchanged, and
`inject_claude_code_system_message` leaves every field other than `system`
unchanged. -/
theorem transform_frame_spec (r : AnthropicMessageRequest) :
    ((sanitize_anthropic_request r).model = r.model ∧
     (sanitize_anthropic_request r).messages = r.messages ∧
     (sanitize_anthropic_request r).max_tokens = r.max_tokens ∧
     (sanitize_anthropic_request r).system = r.system ∧
     (sanitize_anthropic_request r).stream = r.stream ∧
     (sanitize_anthropic_request r).thinking = r.thinking) ∧
    ((inject_claude_code_system_message r).model = r.model ∧
     (inject_claude_code_system_message r).messages = r.messages ∧
     (inject_claude_code_system_message r).max_tokens = r.max_tokens ∧
     (inject_claude_code_system_message r).temperature = r.temperature ∧
     (inject_claude_code_system_message r).top_p = r.top_p ∧
     (inject_claude_code_system_message r).top_k = r.top_k ∧
     (inject_claude_code_system_message r).stream = r.stream ∧
     (inject_claude_code_system_message r).thinking = r.thinking ∧
     (inject_claude_code_system_message r).tools = r.tools) :=
  ⟨sanitize_preserves r, inject_preserves r⟩

/-- Claim C9: `inject_claude_code_system_message` normalizes the system
field of a request (whose system field, per the data model, is absent, a
string, or a list of blocks) to a list with the synthetic first-party block
prepended: no system field yields exactly the synthetic block, a string
yields the synthetic block followed by the text block of that string, and a
list gets the synthetic block prepended ahead of all caller blocks. -/
theorem inject_identity_spec (r : AnthropicMessageRequest) :
    (r.system = none →
      (inject_claude_code_system_message r).system
        = some (Json.arr [claude_code_spoof_element])) ∧
    (∀ s, r.system = some (Json.str s) →
      (inject_claude_code_system_message r).system
        = some (Json.arr [claude_code_spoof_element, systemTextBlock s])) ∧
    (∀ elems, r.system = some (Json.arr elems) →
      (inject_claude_code_system_message r).system
        = some (Json.arr (claude_code_spoof_element :: elems))) := by
  refine ⟨fun h => ?_, fun s h => ?_, fun elems h => ?_⟩ <;>
    simp [inject_claude_code_system_message, h]

/-- Witness for C9 at two concrete requests: one with no system field, one
with system string `"X"`. -/
theorem inject_identity_spec_witness :
    (inject_claude_code_system_message noSystemRequest).system
        = some (Json.arr [claude_code_spoof_element]) ∧
    (inject_claude_code_system_message stringSystemRequest).system
        = some (Json.arr [claude_code_spoof_element, systemTextBlock "X"]) :=
  ⟨(inject_identity_spec noSystemRequest).1 rfl,
   (inject_identity_spec stringSystemRequest).2.1 "X" rfl⟩

theorem ensure_preserves (r : AnthropicMessageRequest) :
    (ensure_thinking_max_tokens r).thinking = r.thinking ∧
    (ensure_thinking_max_tokens r).temperature = r.temperature ∧
    (ensure_thinking_max_tokens r).top_p = r.top_p := by
  rcases h : r.thinking with _ | t
  · simp [ensure_thinking_max_tokens, h]
  · simp only [ensure_thinking_max_tokens, h]
    by_cases he : (t.type_ == "enabled") = true
    · by_cases hm : r.max_tokens < t.budget_tokens + 1024
      · simp [he, hm, h]
      · simp [he, hm, h]
    · simp [he, h]

theorem ensure_max_tokens (r : AnthropicMessageRequest) (t : ThinkingParameter)
    (hthink : r.thinking = some t) (hen : t.type_ = "enabled") :
    t.budget_tokens + 1024 ≤ (ensure_thinking_max_tokens r).max_tokens := by
  simp only [ensure_thinking_max_tokens, hthink, hen]
  by_cases hm : r.max_tokens < t.budget_tokens + 1024
  · simp [hm]
  · simp [hm]
    omega

theorem sanitize_enabled_shape (r : AnthropicMessageRequest)
    (hen : thinkingEnabled r.thinking = true) :
    (sanitize_anthropic_request r).temperature
        = thinkTemperature (sanitizeTemperature r.temperature) ∧
    (sanitize_anthropic_request r).top_p = thinkTopP (sanitizeTopP r.top_p) ∧
    (sanitize_anthropic_request r).top_k = none := by
  unfold sanitize_anthropic_request applyThinkingConstraints dropPhase
  simp [hen]

/-- Claim C2 counterexample: on a thinking-enabled request that supplies no
temperature, the sanitization stage leaves the temperature absent rather
than forcing it to `1.0`, contradicting the claim's "including when no
temperature was given". -/
theorem thinking_temperature_counterexample :
    (sanitize_stage thinkingNoTemperatureRequest).temperature = none ∧
    (sanitize_stage thinkingNoTemperatureRequest).temperature ≠ some (F32.val 1) := by
  constructor
  · rfl
  · decide

/-- Claim C2 as amended: for a thinking-enabled request the sanitization
stage (the handler's max-tokens adjustment followed by
`sanitize_anthropic_request`) removes `top_k`, raises `max_tokens` to at
least `budget_tokens + 1024`, forces a set non-NaN temperature to exactly
`1.0` when it differs from `1.0` by more than `f32::EPSILON` (an absent
temperature stays absent, and one within epsilon of `1.0` is left as is, so
any temperature in the result lies within epsilon of `1.0`), and any
`top_p` present in the result lies in `[0.95, 1.0]`. -/
theorem sanitize_stage_thinking_spec (r : AnthropicMessageRequest) (t : ThinkingParameter)
    (hthink : r.thinking = some t) (hen : t.type_ = "enabled") :
    (sanitize_stage r).top_k = none ∧
    t.budget_tokens + 1024 ≤ (sanitize_stage r).max_tokens ∧
    (r.temperature = none → (sanitize_stage r).temperature = none) ∧
    (∀ q, r.temperature = some (F32.val q) → f32Epsilon < |q - 1| →
      (sanitize_stage r).temperature = some (F32.val 1)) ∧
    (∀ v, (sanitize_stage r).temperature = some v →
      ∃ q, v = F32.val q ∧ |q - 1| ≤ f32Epsilon) ∧
    (∀ v, (sanitize_stage r).top_p = some v →
      ∃ q, v = F32.val q ∧ 95 / 100 ≤ q ∧ q ≤ 1) := by
  have hpres := ensure_preserves r
  have henb : thinkingEnabled (ensure_thinking_max_tokens r).thinking = true := by
    rw [hpres.1, hthink]
    simp [thinkingEnabled, hen]
  have hshape := sanitize_enabled_shape (ensure_thinking_max_tokens r) henb
  have htemp : (sanitize_stage r).temperature
      = thinkTemperature (sanitizeTemperature r.temperature) := by
    rw [sanitize_stage, hshape.1, hpres.2.1]
  have htopp : (sanitize_stage r).top_p = thinkTopP (sanitizeTopP r.top_p) := by
    rw [sanitize_stage, hshape.2.1, hpres.2.2]
  refine ⟨?_, ?_, ?_, ?_, ?_, ?_⟩
  · rw [sanitize_stage, hshape.2.2]
  · rw [sanitize_stage,
      (sanitize_preserves (ensure_thinking_max_tokens r)).2.2.1]
    exact ensure_max_tokens r t hthink hen
  · intro h
    rw [htemp, h]
    rfl
  · intro q hq hgt
    rw [htemp, hq]
    have : f32AbsSubOneGtEps (F32.val q) = true := by
      simp [f32AbsSubOneGtEps, hgt]
    simp [sanitizeTemperature, thinkTemperature, this]
  · intro v hv
    rw [htemp] at hv
    rcases hx : r.temperature with _ | x
    · rw [hx] at hv
      exact absurd hv (by simp [sanitizeTemperature, thinkTemperature])
    rcases x with _ | q
    · rw [hx] at hv
      exact absurd hv (by simp [sanitizeTemperature, thinkTemperature])
    · rw [hx] at hv
      by_cases hgt : f32AbsSubOneGtEps (F32.val q)
      · simp [sanitizeTemperature, thinkTemperature, hgt] at hv
        exact ⟨1, hv.symm, by simp [f32Epsilon]⟩
      · simp [sanitizeTemperature, thinkTemperature, hgt] at hv
        refine ⟨q, hv.symm, ?_⟩
        simpa [f32AbsSubOneGtEps, not_lt] using hgt
  · intro v hv
    rw [htopp] at hv
    rcases hx : r.top_p with _ | x
    · rw [hx] at hv
      exact absurd hv (by simp [sanitizeTopP, thinkTopP])
    rcases x with _ | q
    · rw [hx] at hv
      exact absurd hv (by simp [sanitizeTopP, thinkTopP])
    · rw [hx] at hv
      by_cases hq : 0 ≤ q ∧ q ≤ 1
      · by_cases hr : f32InRange (95 / 100) 1 (F32.val q)
        · simp [sanitizeTopP, hq, thinkTopP, hr] at hv
          have := hr
          simp [f32InRange] at this
          exact ⟨q, hv.symm, this.1, this.2⟩
        · simp [sanitizeTopP, hq, thinkTopP, hr, f32ClampMaxMin] at hv
          exact ⟨min (max q (95 / 100)) 1, hv.symm, clamp95Bounds q⟩
      · simp [sanitizeTopP, hq, thinkTopP] at hv

/-- Witness for the amended C2 at the specification's worked example. -/
theorem sanitize_stage_thinking_spec_witness :
    (sanitize_stage specExampleRequest).top_k = none ∧
    (2000 : Int) + 1024 ≤ (sanitize_stage specExampleRequest).max_tokens :=
  ⟨(sanitize_stage_thinking_spec specExampleRequest ⟨"enabled", 2000⟩ rfl rfl).1,
   (sanitize_stage_thinking_spec specExampleRequest ⟨"enabled", 2000⟩ rfl rfl).2.1⟩

/-- Claim C3 counterexample: with non-empty env token overrides present and
a malformed token file, `load_tokens` succeeds with the env-derived record
instead of surfacing the parse error — the source's `if let Ok(Some(..))`
pattern discards the `Err` on this path. -/
theorem load_malformed_counterexample :
    (load_tokens ⟨some "envAccess", some "envRefresh", none, none⟩ FileState.malformed 0).1
      = Except.ok (some ⟨"envAccess", "envRefresh", 86400⟩) ∧
    ∀ e, (load_tokens ⟨some "envAccess", some "envRefresh", none, none⟩ FileState.malformed 0).1
      ≠ Except.error e := by
  refine ⟨by decide, fun e => ?_⟩
  cases e <;> decide

/-- Claim C3 as amended: a malformed token file is a surfaced fatal error
for `load_tokens` exactly when no usable env override pair (both variables
set with non-whitespace content) is present; with a usable pair the
malformed file is silently ignored and the env-derived record is
returned. -/
theorem load_malformed_spec (env : Env) (now : Int) :
    (usableEnvOverrides env = none →
      (load_tokens env FileState.malformed now).1 = Except.error StorageError.parseError) ∧
    (∀ a r, usableEnvOverrides env = some (a, r) →
      (load_tokens env FileState.malformed now).1
        = Except.ok (some ⟨a, r, envExpiresAt env now⟩)) := by
  constructor
  · intro h
    simp [load_tokens, h, try_load_from_file]
  · intro a r h
    simp [load_tokens, h, try_load_from_file]

/-- Witness for the amended C3: with no env overrides at all, the malformed
file surfaces the parse error. -/
theorem load_malformed_spec_witness :
    (load_tokens ⟨none, none, none, none⟩ FileState.malformed 0).1
      = Except.error StorageError.parseError :=
  (load_malformed_spec ⟨none, none, none, none⟩ 0).1 rfl

/-- Claim C4 counterexample: the concrete save below writes the token file
in place — there is no rename in its operation trace — so it is not a
write-then-replace. -/
theorem save_not_atomic_counterexample :
    ¬ writesAtomically (save_tokens_ops "tokens.json" "acc" "ref" 3600 1000) "tokens.json" := by
  intro h
  obtain ⟨⟨tmp, content, hne, hw, hr⟩, hnow⟩ := h
  simp [save_tokens_ops, save_token_data_ops] at hr

/-- Claim C4 as amended: every persisted-record write (`save_tokens` and
the `save_token_data` persist step used by `load_tokens`) writes the
serialized record directly to the token path in place, and performs no
rename of a temporary file, so the write is not atomic
write-then-replace. -/
theorem save_in_place_spec (token_path access refresh : String)
    (expires_in now : Int) (d : TokenData) :
    FsOp.write token_path (to_string_pretty ⟨access, refresh, now + expires_in⟩)
        ∈ save_tokens_ops token_path access refresh expires_in now ∧
    FsOp.write token_path (to_string_pretty d) ∈ save_token_data_ops token_path d ∧
    (∀ src dst, FsOp.rename src dst ∉ save_tokens_ops token_path access refresh expires_in now) ∧
    (∀ src dst, FsOp.rename src dst ∉ save_token_data_ops token_path d) := by
  refine ⟨?_, ?_, ?_, ?_⟩ <;> simp [save_tokens_ops, save_token_data_ops]

/-- Witness for the amended C4 at a concrete save. -/
theorem save_in_place_spec_witness :
    FsOp.write "tok.json" (to_string_pretty ⟨"a", "r", 7⟩)
      ∈ save_token_data_ops "tok.json" ⟨"a", "r", 7⟩ ∧
    FsOp.rename "tmp" "tok.json" ∉ save_token_data_ops "tok.json" ⟨"a", "r", 7⟩ :=
  ⟨(save_in_place_spec "tok.json" "a" "r" 3 4 ⟨"a", "r", 7⟩).2.1,
   (save_in_place_spec "tok.json" "a" "r" 3 4 ⟨"a", "r", 7⟩).2.2.2 "tmp" "tok.json"⟩

/-- Claim C5 counterexample: the router exposes `/debug/token` without
authentication, and two credential stores that agree on every derived
status but differ in token bytes produce different `/debug/token`
responses (the `token_preview` field carries the first and last 12
characters of the raw access token), while their `/auth/status` responses
coincide. -/
theorem token_debug_leak_counterexample :
    (⟨"GET", "/debug/token", false⟩ : Route) ∈ create_router_routes ∧
    auth_status ⟨none, none, none, none⟩
        (FileState.valid ⟨"AAAAAAAAAAAAAAAAAAAAAAAAAA", "r", 1000000⟩) 0
      = auth_status ⟨none, none, none, none⟩
        (FileState.valid ⟨"BBBBBBBBBBBBBBBBBBBBBBBBBB", "r", 1000000⟩) 0 ∧
    (token_debug ⟨none, none, none, none⟩
        (FileState.valid ⟨"AAAAAAAAAAAAAAAAAAAAAAAAAA", "r", 1000000⟩) 0).getStrField
          "token_preview"
      ≠ (token_debug ⟨none, none, none, none⟩
        (FileState.valid ⟨"BBBBBBBBBBBBBBBBBBBBBBBBBB", "r", 1000000⟩) 0).getStrField
          "token_preview" ∧
    token_debug ⟨none, none, none, none⟩
        (FileState.valid ⟨"AAAAAAAAAAAAAAAAAAAAAAAAAA", "r", 1000000⟩) 0
      ≠ token_debug ⟨none, none, none, none⟩
        (FileState.valid ⟨"BBBBBBBBBBBBBBBBBBBBBBBBBB", "r", 1000000⟩) 0 :=
  ⟨by decide, by decide, by decide,
   fun h => absurd (congrArg (fun j => Json.getStrField j "token_preview") h) (by decide)⟩

/-- Claim C5 as amended: the credential-status response is a function of
derived status alone — two loaded records with the same expiry yield
identical `/auth/status` bodies whatever their token bytes — but the
router additionally exposes the unauthenticated `/debug/token` route,
whose response reveals portions of the raw access token. -/
theorem auth_status_noninterference (d1 d2 : TokenData) (now : Int)
    (h : d1.expires_at = d2.expires_at) :
    get_status_of (Except.ok (some d1)) now = get_status_of (Except.ok (some d2)) now := by
  simp [get_status_of, h]

/-- Witness for the amended C5 at two concrete records differing only in
token bytes. -/
theorem auth_status_noninterference_witness :
    get_status_of (Except.ok (some ⟨"tokA", "rA", 500⟩)) 0
      = get_status_of (Except.ok (some ⟨"tokB", "rB", 500⟩)) 0 :=
  auth_status_noninterference ⟨"tokA", "rA", 500⟩ ⟨"tokB", "rB", 500⟩ 0 rfl

/-- Claim C6 counterexample: on input `"c#s#t"` the code's state part is
`"s"` — the segment between the first and second `#` — not everything
after the first `#` (which is `"s#t"`); in the no-session flow the
verifier the code would use is therefore `"s"`, not `"s#t"`. -/
theorem exchange_code_split_counterexample :
    exchange_code_split "c#s#t" = some ("c", "s") ∧
    splitOnFirstHash "c#s#t" = some ("c", "s#t") ∧
    exchange_code_split "c#s#t" ≠ splitOnFirstHash "c#s#t" ∧
    (exchange_code_split "c#s#t").map (fun p => resolve_code_verifier none p.2)
      = some "s" := by
  refine ⟨by decide, by decide, by decide, by decide⟩

/-- Claim C6 as amended: the exchange input is split on `#` into segments;
fewer than two segments is an error, otherwise CODE is the first segment
and STATE the second — the text between the first and second `#`, which is
everything after the first `#` only when no later `#` exists — and the
PKCE verifier used is the saved session's verifier when one exists,
otherwise that STATE segment. -/
theorem exchange_code_split_spec (input c s : String) (rest : List String)
    (h : splitChar (Char.ofNat 35) input = c :: s :: rest) (v st : String) :
    exchange_code_split input = some (c, s) ∧
    resolve_code_verifier (some (v, st)) s = v ∧
    resolve_code_verifier none s = s := by
  refine ⟨?_, rfl, rfl⟩
  simp [exchange_code_split, h]

/-- Witness for the amended C6 at a two-segment input. -/
theorem exchange_code_split_spec_witness :
    exchange_code_split "thecode#thestate" = some ("thecode", "thestate") :=
  (exchange_code_split_spec "thecode#thestate" "thecode" "thestate" [] (by decide) "v" "st").1

/-- Claim C1: the code violates the single-flight requirement. In the
embedded interleaving of two concurrent `refresh_tokens` callers over one
stored credential, the schedule where both read the refresh token before
either posts issues TWO upstream refresh calls — the source takes no lock
between read, POST and save — where the claim requires exactly one; after
the two reads both callers hold the same refresh token, which the
provider's rotation makes stale for the second caller. -/
theorem refresh_not_single_flighted :
    (runSchedule twoCallersWorld [0, 1, 0, 1, 0, 1]).upstreamCalls = 2 ∧
    (runSchedule twoCallersWorld [0, 1]).threads
      = [RefreshPc.post "refresh0", RefreshPc.post "refresh0"] := by
  refine ⟨by decide, by decide⟩

theorem b64UrlNoPad_length : ∀ l : List Nat, (b64UrlNoPad l).length = (4 * l.length + 2) / 3
  | [] => by simp [b64UrlNoPad]
  | [_] => by simp [b64UrlNoPad]
  | [_, _] => by simp [b64UrlNoPad]
  | _ :: _ :: _ :: rest => by
      simp [b64UrlNoPad, b64UrlNoPad_length rest]
      omega

/-- Claim C8: for a 32-byte random input, the PKCE verifier is its URL-safe
unpadded base64 encoding, hence 43 characters long (within the 43–128
requirement); the challenge is the URL-safe unpadded base64 encoding of the
SHA-256 of the verifier's bytes; and the authorization URL's `state` query
parameter equals the verifier. -/
theorem generate_pkce_spec (random_bytes : List Nat) (h : random_bytes.length = 32) :
    (generate_pkce random_bytes).1 = String.mk (b64UrlNoPad random_bytes) ∧
    (generate_pkce random_bytes).1.length = 43 ∧
    43 ≤ (generate_pkce random_bytes).1.length ∧
    (generate_pkce random_bytes).1.length ≤ 128 ∧
    (generate_pkce random_bytes).2
      = String.mk (b64UrlNoPad (sha256 (strBytes (generate_pkce random_bytes).1))) ∧
    (get_authorize_url_query random_bytes).lookup "state"
      = some (generate_pkce random_bytes).1 := by
  have hlen : (generate_pkce random_bytes).1.length = 43 := by
    show (b64UrlNoPad random_bytes).length = 43
    rw [b64UrlNoPad_length, h]
  refine ⟨rfl, hlen, by omega, by omega, rfl, ?_⟩
  rfl

/-- Witness for C8 at a concrete 32-byte input. -/
theorem generate_pkce_spec_witness :
    (generate_pkce (List.replicate 32 0)).1.length = 43 :=
  (generate_pkce_spec (List.replicate 32 0) (by decide)).2.1

end Maximize
